import Mathlib

/-!
Shallow embedding of `src/wrangler.py` (FollowupWrangler).

Modelling conventions:
- A Python dict row is modelled as the fixed structure `Row` of dynamically
  typed values (`PyVal`); an absent key and a key bound to `None` are both
  `PyVal.none`, which matches the behaviour of `dict.get`.
- A Python function that can raise is modelled with `Option` (`none` = an
  exception escaped).
- Python `float` values are modelled as exact rationals (`ℚ`).  Every concrete
  number appearing in a theorem below is exactly representable as an IEEE
  double or only compared for order against 0.5/1.0, so the exact model and
  CPython agree on every stated fact.
- `wrangler.py` imports only `os, sys, re, csv, json, subprocess, tempfile,
  pathlib, datetime` and `collections.defaultdict`.  The names `dtp` and
  `relativedelta` used at lines 97, 103-106 and 168 are therefore unbound:
  at runtime every evaluation of `dtp.parse` raises `NameError`, which the
  surrounding `except Exception` handlers swallow.  The embedding mirrors
  that behaviour and records it in comments at the relevant definitions.
-/

/-- A dynamically typed Python value as it can occur in a wrangler row
(scalars only; no claim exercises container-valued fields). -/
inductive PyVal where
  | none
  | str (s : String)
  | int (n : Int)
  | float (q : ℚ)
  | bool (b : Bool)
deriving DecidableEq

/-- Python truthiness (`bool(x)`) for the scalar values of `PyVal`. -/
def pyTruthy : PyVal → Bool
  | .none => false
  | .str s => !(s == "")
  | .int n => !(n == 0)
  | .float q => !(q == 0)
  | .bool b => b

/-- The Python expression `a or b`: the left operand when truthy, else the
right operand. -/
def pyOr (a b : PyVal) : PyVal :=
  if pyTruthy a then a else b

/-- ASCII lower-casing of one character, as `str.lower` does for the ASCII
range (uppercase letters code 65..90 map to code+32, everything else is
kept).  Inputs appearing in the claims are ASCII, where CPython agrees. -/
def lowerChar (c : Char) : Char :=
  if 65 ≤ c.toNat ∧ c.toNat ≤ 90 then Char.ofNat (c.toNat + 32) else c

/-- `str.lower` (ASCII fragment, see `lowerChar`). -/
def lowerStr (s : String) : String :=
  String.mk (s.data.map lowerChar)

/-- `x.lower()`: succeeds only on strings; on every other scalar the
attribute lookup raises `AttributeError` (modelled as `Option.none`). -/
def pyLower : PyVal → Option PyVal
  | .str s => some (.str (lowerStr s))
  | _ => Option.none

/-- Digit run: the longest prefix of decimal digits, plus the rest. -/
def spanDigits : List Char → List Char × List Char
  | [] => ([], [])
  | c :: cs =>
    if c.isDigit then
      let p := spanDigits cs
      (c :: p.1, p.2)
    else ([], c :: cs)

/-- Value of a list of decimal digit characters. -/
def digitsToNat (ds : List Char) : Nat :=
  ds.foldl (fun a c => 10 * a + (c.toNat - 48)) 0

/-- Exponent part of a Python float literal: optional `e`/`E`, optional sign,
one or more digits; returns the exponent and requires the rest to be empty. -/
def parseFloatExp : List Char → Option Int
  | [] => some 0
  | 'e' :: cs => parseFloatExpSigned cs
  | 'E' :: cs => parseFloatExpSigned cs
  | _ => Option.none
where
  parseFloatExpSigned : List Char → Option Int
  | '+' :: cs => parseFloatExpDigits cs
  | '-' :: cs => (parseFloatExpDigits cs).map (fun e => -e)
  | cs => parseFloatExpDigits cs
  parseFloatExpDigits (cs : List Char) : Option Int :=
    match spanDigits cs with
    | ([], _) => Option.none
    | (ds, rest) => if rest.isEmpty then some (Int.ofNat (digitsToNat ds)) else Option.none

/-- CPython `float(str)`: strip whitespace, optional sign, a mantissa of
digits with an optional decimal point (at least one digit overall), and an
optional exponent.  The value is computed exactly in `ℚ`.  The special
literals `inf`/`infinity`/`nan` and digit-group underscores accepted by
CPython are outside the model (not representable in `ℚ`; no claim input uses
them), and CPython rounds the result to a double, which agrees with the
exact value on every number a theorem below evaluates. -/
def parsePyFloat (s : String) : Option ℚ :=
  let cs := (s.data.dropWhile Char.isWhitespace).reverse.dropWhile Char.isWhitespace |>.reverse
  let signed : Bool × List Char :=
    match cs with
    | '+' :: r => (false, r)
    | '-' :: r => (true, r)
    | r => (false, r)
  let body := signed.2
  let ip := spanDigits body
  let fp : Option (List Char × List Char) :=
    match ip.2 with
    | '.' :: r =>
      let f := spanDigits r
      some (f.1, f.2)
    | r => some ([], r)
  match fp with
  | Option.none => Option.none
  | some (fds, rest) =>
    if ip.1.isEmpty ∧ fds.isEmpty then Option.none
    else
      match parseFloatExp rest with
      | Option.none => Option.none
      | some e =>
        let mant : ℚ := (digitsToNat (ip.1 ++ fds) : ℚ) / (10 : ℚ) ^ fds.length
        let v := mant * (10 : ℚ) ^ e
        some (if signed.1 then -v else v)

/-- `float(x)` on a scalar: numbers and booleans convert, strings are parsed
as float literals (`ValueError` = `Option.none` on failure), and `None`
raises `TypeError` (`Option.none`). -/
def pyFloat : PyVal → Option ℚ
  | .float q => some q
  | .int n => some (n : ℚ)
  | .bool b => some (if b then 1 else 0)
  | .str s => parsePyFloat s
  | .none => Option.none

/-- `pathlib.Path(p).name` for a plain POSIX path: the part after the last
slash.  (Trailing-slash and drive normalization are outside the model; every
path a theorem uses is a bare file name or a simple slash-separated path.) -/
def pathName (p : String) : String :=
  (p.splitOn "/").getLastD ""

/-- `pathlib.Path(p).stem`: the final component without its last suffix;
pathlib keeps the whole name when the last dot is the first character or the
last character (no suffix). -/
def stem (p : String) : String :=
  let n := (pathName p).data
  match n.reverse.findIdx? (fun c => c == '.') with
  | Option.none => String.mk n
  | some rIdx =>
    let i := n.length - 1 - rIdx
    if i = 0 ∨ i = n.length - 1 then String.mk n else String.mk (n.take i)

/-- One wrangler row / candidate dict, projected to the keys the program
reads.  `dict.get` on an absent key gives `None`, so every field defaults to
`PyVal.none`. -/
structure Row where
  patient_id : PyVal := .none
  report_date : PyVal := .none
  modality : PyVal := .none
  body_part : PyVal := .none
  finding : PyVal := .none
  recommended_followup : PyVal := .none
  timeframe : PyVal := .none
  due_by : PyVal := .none
  priority : PyVal := .none
  confidence : PyVal := .none
  source_pdf : PyVal := .none
  page : PyVal := .none
deriving DecidableEq

/-- `wrangler.add_relative_due_by` (lines 92-108).  The guard returns the row
unchanged when `due_by` is truthy or `timeframe`/`report_date` are falsy.
Otherwise the source runs `base = dtp.parse(row["report_date"]).date()`
inside `try`; `dtp` is an unbound name (dateutil is never imported), so this
raises `NameError` on every input and `except Exception: return row` fires.
The regex match and the `relativedelta` arithmetic at lines 100-107 are dead
code, hence the function always returns its argument unchanged. -/
def add_relative_due_by (row : Row) : Row :=
  if pyTruthy row.due_by || !pyTruthy row.timeframe || !pyTruthy row.report_date then
    row
  else
    row

/-- `wrangler.normalize_row` (lines 110-125): field defaulting via `or`,
lower-casing of priority, `float` coercion of confidence, attachment of the
source file name and page, then `add_relative_due_by`.  `Option.none` models
an escaped exception (`AttributeError` from `.lower()` on a non-string
truthy priority, `ValueError`/`TypeError` from `float` on a non-coercible
truthy confidence). -/
def normalize_row (r : Row) (pdf : String) (page : Int) : Option Row := do
  let pr ← pyLower (pyOr r.priority (.str "low"))
  let cf ← pyFloat (pyOr r.confidence (.float (1/2)))
  let row : Row :=
    { patient_id := r.patient_id
      report_date := r.report_date
      modality := pyOr r.modality (.str "Other")
      body_part := pyOr r.body_part (.str "")
      finding := pyOr r.finding (.str "")
      recommended_followup := r.recommended_followup
      timeframe := r.timeframe
      due_by := r.due_by
      priority := pr
      confidence := .float cf
      source_pdf := .str (pathName pdf)
      page := .int page }
  return add_relative_due_by row

def c1row : Row := { report_date := .str "2024-01-31", timeframe := .str "in 1 month" }

def c4cand : Row :=
  { recommended_followup := .none, timeframe := .str "in 3 months", due_by := .str "2024-05-01" }

def c4out : Row :=
  { modality := .str "Other", body_part := .str "", finding := .str "",
    recommended_followup := .none, timeframe := .str "in 3 months",
    due_by := .str "2024-05-01", priority := .str "low",
    confidence := .float (1/2), source_pdf := .str "a.pdf", page := .int 1 }

def c4wCand : Row := { timeframe := .str "in 2 weeks" }

def c4wOut : Row :=
  { modality := .str "Other", body_part := .str "", finding := .str "",
    timeframe := .str "in 2 weeks", priority := .str "low",
    confidence := .float (1/2), source_pdf := .str "w.pdf", page := .int 2 }

def c5cand : Row := { priority := .str "Urgent", confidence := .float (1/5) }

def c5out : Row :=
  { modality := .str "Other", body_part := .str "", finding := .str "",
    priority := .str "urgent", confidence := .float (1/5),
    source_pdf := .str "a.pdf", page := .int 1 }

def c5wCand : Row := { priority := .str "HIGH" }

def c5wOut : Row :=
  { modality := .str "Other", body_part := .str "", finding := .str "",
    priority := .str "high", confidence := .float (1/2),
    source_pdf := .str "w.pdf", page := .int 1 }

def c6cand : Row := { confidence := .float 2 }

def c6out : Row :=
  { modality := .str "Other", body_part := .str "", finding := .str "",
    priority := .str "low", confidence := .float 2,
    source_pdf := .str "a.pdf", page := .int 1 }

def c6wA : Row := { confidence := .float (3/10) }

def c6wAout : Row :=
  { modality := .str "Other", body_part := .str "", finding := .str "",
    priority := .str "low", confidence := .float (3/10),
    source_pdf := .str "w.pdf", page := .int 1 }

def c6wB : Row := { confidence := .str "abc" }

def c8cand : Row := { confidence := .str "0" }

def c8o1 : Row :=
  { modality := .str "Other", body_part := .str "", finding := .str "",
    priority := .str "low", confidence := .float 0,
    source_pdf := .str "a.pdf", page := .int 1 }

def c8o2 : Row :=
  { modality := .str "Other", body_part := .str "", finding := .str "",
    priority := .str "low", confidence := .float (1/2),
    source_pdf := .str "a.pdf", page := .int 1 }

def c8wOut : Row :=
  { modality := .str "Other", body_part := .str "", finding := .str "",
    priority := .str "low", confidence := .float (1/2),
    source_pdf := .str "w.pdf", page := .int 3 }

/-- The format specifier `:.2f` applied to an exact value: round to two
decimal places with round-half-to-even, the rounding CPython applies to the
decimal expansion of a double.  Exact on all values a theorem evaluates. -/
def format2 (q : ℚ) : String :=
  let sgn := if q < 0 then "-" else ""
  let a : ℚ := |q| * 100
  let fl : ℤ := ⌊a⌋
  let fr : ℚ := a - fl
  let n : ℤ :=
    if 1/2 < fr then fl + 1
    else if fr < 1/2 then fl
    else if fl % 2 = 0 then fl else fl + 1
  let cents := n % 100
  let centsStr := if cents < 10 then "0" ++ toString cents else toString cents
  sgn ++ toString (n / 100) ++ "." ++ centsStr

/-- `str(x)` as applied by `csv.writer` to a cell value.  A float-valued
text cell would need the CPython shortest-repr algorithm; it is outside the
model (`Option.none`), and no theorem builds a row with a float in a plain
text cell (the confidence column goes through `format2` instead). -/
def csvCell : PyVal → Option String
  | .str s => some s
  | .int n => some (toString n)
  | .bool b => some (if b then "True" else "False")
  | .none => some "None"
  | .float _ => Option.none

/-- `wrangler.append_rows` cell list for one row (lines 130-144): the twelve
columns in source order, `or ""` defaulting on the optional text fields, and
the confidence formatted by `f"..:.2f"` after a `float` coercion that can
raise. -/
def rowCells (r : Row) : Option (List String) := do
  let c1 ← csvCell (pyOr r.patient_id (.str ""))
  let c2 ← csvCell (pyOr r.report_date (.str ""))
  let c3 ← csvCell r.modality
  let c4 ← csvCell r.body_part
  let c5 ← csvCell r.finding
  let c6 ← csvCell (pyOr r.recommended_followup (.str ""))
  let c7 ← csvCell (pyOr r.timeframe (.str ""))
  let c8 ← csvCell (pyOr r.due_by (.str ""))
  let c9 ← csvCell r.priority
  let c10 ← csvCell r.source_pdf
  let c11 ← csvCell r.page
  let cf ← pyFloat r.confidence
  return [c1, c2, c3, c4, c5, c6, c7, c8, c9, c10, c11, format2 cf]

/-- `wrangler.append_rows` (lines 127-144): the file is opened in append
mode and one line per row is written; nothing else is touched and no header
line is ever produced.  The persisted file is modelled as the list of its
lines, each line as its list of cells.  (CSV quoting is not modelled; no
theorem uses a cell containing a delimiter.  A row that raises mid-loop
would leave earlier rows written; no theorem feeds a failing row.) -/
def append_rows (table : List (List String)) (rows : List Row) : Option (List (List String)) :=
  (rows.mapM rowCells).map (fun cells => table ++ cells)

/-- The header row the specification describes for the result table
(section 6, fixed column order).  Stated from the spec so that theorems can
compare the file `append_rows` actually produces against it; `wrangler.py`
itself never writes any header. -/
def csvHeader : List String :=
  ["patient_id", "report_date", "modality", "body_part", "finding",
   "recommended_followup", "timeframe", "due_by", "priority",
   "source_document", "page", "confidence"]

/-- `within_30` inner function of `wrangler.aggregate_dashboard` (lines
166-172).  Its body is
`try: d = dtp.parse(str(x)).date(); delta = (d - today).days; return -365 <= delta <= 30`
`except Exception: return False` — and `dtp` is an unbound name (dateutil is
never imported), so the first statement raises `NameError` on every input
and the handler returns `False` unconditionally.  The window test at line
170 is dead code; consequently the function ignores its argument and the
current date. -/
def within_30 (x : String) : Bool :=
  false

/-- Rollup statistics payload of `wrangler.aggregate_dashboard` (line 160).
The two value-count groupings are modelled as counting functions. -/
structure DashStats where
  total_rows : Nat
  due_within_30 : Nat
  by_priority : String → Nat
  by_modality : String → Nat

/-- `wrangler.aggregate_dashboard` (lines 159-179), statistics part.
`pd.read_csv` with default arguments consumes the FIRST line of the file as
the column header (the file `append_rows` maintains has no header line, so
a data row is consumed); on an empty file it raises, the outer
`except Exception: pass` fires, and the initial all-zero stats survive.
`df.shape[0]` counts the remaining lines; `due_within_30` sums `within_30`
over the `due_by` column when a column of that name exists; the groupings
count values of the `priority`/`modality` columns when present. -/
def aggregate_dashboard_stats (csvLines : List (List String)) : DashStats :=
  match csvLines with
  | [] => ⟨0, 0, fun _ => 0, fun _ => 0⟩
  | header :: body =>
    { total_rows := body.length
      due_within_30 :=
        match header.indexOf? "due_by" with
        | some i => (body.filter (fun r => within_30 (r.getD i ""))).length
        | Option.none => 0
      by_priority :=
        match header.indexOf? "priority" with
        | some i => fun v => (body.map (fun r => r.getD i "")).count v
        | Option.none => fun _ => 0
      by_modality :=
        match header.indexOf? "modality" with
        | some i => fun v => (body.map (fun r => r.getD i "")).count v
        | Option.none => fun _ => 0 }

/-- `wrangler.extract_page_text_or_image` (lines 22-34), with the external
tools abstracted as functions: `ptt` is `pdftotext` on (path, page) and
`tess` is `tesseract` on an image path (`pdftoppm` only materializes the
image file; its output path is computed locally).  Python `str.strip()` is
modelled by `String.trim` (identical on the ASCII whitespace the theorems
use), and `os.path.join` by a slash join (`tmpdir` has no trailing slash in
any theorem). -/
def extract_page_text_or_image (ptt : String → Nat → String) (tess : String → String)
    (tmpdir pdf_path : String) (page_idx : Nat) : String × Option String :=
  let txt := ptt pdf_path page_idx
  if 180 ≤ txt.trim.length then (txt, Option.none)
  else
    let base := tmpdir ++ "/" ++ stem pdf_path ++ "-p" ++ toString page_idx
    let img_path := base ++ "-1.png"
    let ocr := tess img_path
    (if 0 < ocr.trim.length then ocr else "", some img_path)

/-- Number of non-whitespace characters of a string — the quantity the
specification says gates the OCR fallback. Stated from the spec for
comparison; the source gates on `len(txt.strip())` instead. -/
def nonWsCount (s : String) : Nat :=
  (s.data.filter (fun c => !c.isWhitespace)).length

/-- Characters matched by the regex class `\s` (ASCII fragment). -/
def reWsChar (c : Char) : Bool :=
  c == ' ' || c == '\t' || c == '\n' || c == '\r' || c.toNat == 11 || c.toNat == 12

/-- Match the regex `Pages:\s+(\d+)` at the head of the character list:
the literal `Pages:`, at least one whitespace, then the maximal run of
digits as the captured group. -/
def matchPagesAt (cs : List Char) : Option Nat :=
  match dropPrefixChars "Pages:".data cs with
  | Option.none => Option.none
  | some rest =>
    match rest with
    | [] => Option.none
    | c :: rest2 =>
      if reWsChar c then
        match spanDigits (rest2.dropWhile reWsChar) with
        | ([], _) => Option.none
        | (ds, _) => some (digitsToNat ds)
      else Option.none
where
  dropPrefixChars : List Char → List Char → Option (List Char)
  | [], cs => some cs
  | _ :: _, [] => Option.none
  | l :: ls, c :: cs => if c == l then dropPrefixChars ls cs else Option.none

/-- `re.search` for the pattern of `matchPagesAt`: try every start
position, leftmost match wins. -/
def searchPages : List Char → Option Nat
  | [] => Option.none
  | c :: cs =>
    match matchPagesAt (c :: cs) with
    | some n => some n
    | Option.none => searchPages cs

/-- `wrangler.pdf_pages` (lines 17-20): parse the `pdfinfo` output (passed
here as the string `out`); return the captured page count, or 1 when the
pattern `Pages:\s+(\d+)` occurs nowhere. -/
def pdf_pages (out : String) : Nat :=
  match searchPages out.data with
  | some n => n
  | Option.none => 1

def c2rowA : Row :=
  { patient_id := .str "P1"
    report_date := .str "2026-09-01"
    modality := .str "CT"
    body_part := .str "chest"
    finding := .str "nodule"
    priority := .str "high"
    confidence := .float ((9:ℚ)/10)
    source_pdf := .str "a.pdf"
    page := .int 1
    due_by := .str "2026-10-12" }

def c2rowB : Row :=
  { patient_id := .str "P2"
    report_date := .str "2026-10-01"
    modality := .str "XR"
    body_part := .str "lung"
    finding := .str "mass"
    priority := .str "low"
    confidence := .float ((1:ℚ)/2)
    source_pdf := .str "b.pdf"
    page := .int 2
    due_by := .str "2026-11-11" }

def c2lines : List (List String) :=
  [["P1", "2026-09-01", "CT", "chest", "nodule", "", "", "2026-10-12", "high", "a.pdf", "1", "0.90"],
   ["P2", "2026-10-01", "XR", "lung", "mass", "", "", "2026-11-11", "low", "b.pdf", "2", "0.50"]]

def c7txt : String := String.mk ('a' :: (List.replicate 178 ' ' ++ ['a']))

def c9row : Row :=
  { patient_id := .str "P9"
    report_date := .str "2025-12-01"
    modality := .str "MRI"
    body_part := .str "brain"
    finding := .str "lesion"
    recommended_followup := .str "repeat MRI"
    timeframe := .str "in 6 months"
    priority := .str "medium"
    confidence := .float ((87:ℚ)/100)
    source_pdf := .str "c.pdf"
    page := .int 3 }

def c9cells : List String :=
  ["P9", "2025-12-01", "MRI", "brain", "lesion", "repeat MRI", "in 6 months", "",
   "medium", "c.pdf", "3", "0.87"]

/-- A JSON value as produced by `json.loads`: the decoder maps a JSON number
without fraction or exponent to a Python `int` and every other number to a
`float` (modelled exactly in `ℚ`).  The `NaN`/`Infinity` literals CPython
accepts by default are outside the model (not representable in `ℚ`; no
theorem input contains them). -/
inductive JValue where
  | null
  | bool (b : Bool)
  | int (n : Int)
  | float (q : ℚ)
  | str (s : String)
  | arr (xs : List JValue)
  | obj (kvs : List (String × JValue))

/-- The whitespace characters the JSON decoder skips between tokens. -/
def jskipWs : List Char → List Char
  | [] => []
  | c :: cs => if c == ' ' || c == '\t' || c == '\n' || c == '\r' then jskipWs cs else c :: cs

/-- Value of one hexadecimal digit. -/
def hexVal (c : Char) : Option Nat :=
  if '0' ≤ c ∧ c ≤ '9' then some (c.toNat - 48)
  else if 'a' ≤ c ∧ c ≤ 'f' then some (c.toNat - 87)
  else if 'A' ≤ c ∧ c ≤ 'F' then some (c.toNat - 55)
  else Option.none

/-- JSON string body after the opening quote, strict mode: escape sequences
are decoded, an unescaped control character or an unknown escape rejects the
string.  `\uXXXX` is decoded as a single code point (surrogate-pair joining
is outside the model; no theorem input contains a `\u` escape). -/
def jstrAux (acc : List Char) : List Char → Option (List Char × List Char)
  | [] => Option.none
  | '"' :: rest => some (acc.reverse, rest)
  | '\\' :: rest =>
    match rest with
    | [] => Option.none
    | e :: rest2 =>
      match e with
      | '"' => jstrAux ('"' :: acc) rest2
      | '\\' => jstrAux ('\\' :: acc) rest2
      | '/' => jstrAux ('/' :: acc) rest2
      | 'b' => jstrAux (Char.ofNat 8 :: acc) rest2
      | 'f' => jstrAux (Char.ofNat 12 :: acc) rest2
      | 'n' => jstrAux ('\n' :: acc) rest2
      | 'r' => jstrAux ('\r' :: acc) rest2
      | 't' => jstrAux ('\t' :: acc) rest2
      | 'u' =>
        match rest2 with
        | h1 :: h2 :: h3 :: h4 :: rest3 =>
          match hexVal h1, hexVal h2, hexVal h3, hexVal h4 with
          | some a, some b, some c, some d =>
            jstrAux (Char.ofNat (4096 * a + 256 * b + 16 * c + d) :: acc) rest3
          | _, _, _, _ => Option.none
        | _ => Option.none
      | _ => Option.none
  | c :: rest => if c.toNat < 32 then Option.none else jstrAux (c :: acc) rest

/-- Exponent part of a JSON number: absent, or `e`/`E` with optional sign
and at least one digit. -/
def jnumExp : List Char → Option (Option Int × List Char)
  | 'e' :: r => jnumExpTail r
  | 'E' :: r => jnumExpTail r
  | cs => some (Option.none, cs)
where
  jnumExpTail : List Char → Option (Option Int × List Char)
  | '+' :: r => jnumExpDigits false r
  | '-' :: r => jnumExpDigits true r
  | r => jnumExpDigits false r
  jnumExpDigits (neg : Bool) (cs : List Char) : Option (Option Int × List Char) :=
    match spanDigits cs with
    | ([], _) => Option.none
    | (ds, rest) =>
      let e : Int := Int.ofNat (digitsToNat ds)
      some (some (if neg then -e else e), rest)

/-- Fraction part of a JSON number: absent, or a dot with at least one
digit. -/
def jnumFrac : List Char → Option (Option (List Char) × List Char)
  | '.' :: r =>
    match spanDigits r with
    | ([], _) => Option.none
    | (ds, rest) => some (some ds, rest)
  | cs => some (Option.none, cs)

/-- A JSON number per the decoder grammar `-?(0|[1-9]\d*)(\.\d+)?([eE][-+]?\d+)?`:
`int` when fraction and exponent are both absent, `float` otherwise. -/
def jnumber (cs : List Char) : Option (JValue × List Char) :=
  let sgn : Bool × List Char :=
    match cs with
    | '-' :: r => (true, r)
    | r => (false, r)
  match sgn.2 with
  | [] => Option.none
  | c :: r =>
    if c == '0' then jnumAssemble sgn.1 0 r
    else if c.isDigit then
      let p := spanDigits r
      jnumAssemble sgn.1 (digitsToNat (c :: p.1)) p.2
    else Option.none
where
  jnumAssemble (neg : Bool) (ip : Nat) (cs : List Char) : Option (JValue × List Char) :=
    match jnumFrac cs with
    | Option.none => Option.none
    | some (fr, cs1) =>
      match jnumExp cs1 with
      | Option.none => Option.none
      | some (ex, cs2) =>
        match fr, ex with
        | Option.none, Option.none =>
          some (.int (if neg then -(ip : Int) else (ip : Int)), cs2)
        | _, _ =>
          let fd := fr.getD []
          let e := ex.getD 0
          let v : ℚ := ((ip : ℚ) + (digitsToNat fd : ℚ) / (10 : ℚ) ^ fd.length) * (10 : ℚ) ^ e
          some (.float (if neg then -v else v), cs2)

mutual

/-- One JSON value starting at the head of the input (leading whitespace
skipped), returning the rest.  `fuel` bounds the recursion; `json_loads`
supplies `length + 1`, which is ample since every value and every element
consumes at least one character. -/
def jvalue : Nat → List Char → Option (JValue × List Char)
  | 0, _ => Option.none
  | Nat.succ fuel, cs =>
    match jskipWs cs with
    | 'n' :: 'u' :: 'l' :: 'l' :: rest => some (.null, rest)
    | 't' :: 'r' :: 'u' :: 'e' :: rest => some (.bool true, rest)
    | 'f' :: 'a' :: 'l' :: 's' :: 'e' :: rest => some (.bool false, rest)
    | '"' :: rest => (jstrAux [] rest).map (fun p => (.str (String.mk p.1), p.2))
    | '[' :: rest =>
      match jskipWs rest with
      | ']' :: r2 => some (.arr [], r2)
      | r2 => (jitems fuel r2).map (fun p => (.arr p.1, p.2))
    | '{' :: rest =>
      match jskipWs rest with
      | '}' :: r2 => some (.obj [], r2)
      | r2 => (jmembers fuel r2).map (fun p => (.obj p.1, p.2))
    | cs2 => jnumber cs2

/-- Comma-separated array elements up to the closing bracket. -/
def jitems : Nat → List Char → Option (List JValue × List Char)
  | 0, _ => Option.none
  | Nat.succ fuel, cs => do
    let p ← jvalue fuel cs
    match jskipWs p.2 with
    | ']' :: r => some ([p.1], r)
    | ',' :: r => do
      let q ← jitems fuel r
      some (p.1 :: q.1, q.2)
    | _ => Option.none

/-- Comma-separated object members up to the closing brace. -/
def jmembers : Nat → List Char → Option (List (String × JValue) × List Char)
  | 0, _ => Option.none
  | Nat.succ fuel, cs =>
    match jskipWs cs with
    | '"' :: rest => do
      let k ← jstrAux [] rest
      match jskipWs k.2 with
      | ':' :: cs2 => do
        let v ← jvalue fuel cs2
        match jskipWs v.2 with
        | '}' :: r => some ([(String.mk k.1, v.1)], r)
        | ',' :: r => do
          let kvs ← jmembers fuel r
          some ((String.mk k.1, v.1) :: kvs.1, kvs.2)
        | _ => Option.none
      | _ => Option.none
    | _ => Option.none

end

/-- `json.loads`: parse one JSON document; trailing whitespace is allowed,
any other trailing data is an error (`Option.none` models the raised
`JSONDecodeError`). -/
def json_loads (s : String) : Option JValue :=
  match jvalue (s.data.length + 1) s.data with
  | some (v, rest) => if (jskipWs rest).isEmpty then some v else Option.none
  | Option.none => Option.none

/-- The recovery regex of `wrangler.safe_json_loads` (line 85):
`re.search(r"(\[.*\])", s, re.DOTALL)`.  The leftmost match of the greedy
pattern runs from the first opening bracket to the last closing bracket of
the whole string, provided that closing bracket comes later; when the first
opening bracket sits after the last closing bracket no start position can
match at all. -/
def bracketSpan (s : String) : Option String :=
  let ds := s.data
  match ds.findIdx? (fun c => c == '['), ds.reverse.findIdx? (fun c => c == ']') with
  | some i, some rj =>
    let j := ds.length - 1 - rj
    if i < j then some (String.mk ((ds.drop i).take (j - i + 1))) else Option.none
  | _, _ => Option.none

/-- `wrangler.safe_json_loads` (lines 81-89): strict parse, then parse of
the recovered bracket span, then the empty list.  The function never raises:
every failure tier falls through to `[]`. -/
def safe_json_loads (s : String) : JValue :=
  match json_loads s with
  | some v => v
  | Option.none =>
    match bracketSpan s with
    | some t =>
      match json_loads t with
      | some v => v
      | Option.none => .arr []
    | Option.none => .arr []

/-- Python iteration `for r in checked` over a `json.loads` result: a list
yields its items, a dict its keys, a string its characters; a number, bool
or `None` raises `TypeError` (`Option.none`). -/
def iterElems : JValue → Option (List JValue)
  | .arr xs => some xs
  | .obj kvs => some (kvs.map (fun kv => JValue.str kv.1))
  | .str s => some (s.data.map (fun c => JValue.str (String.mk [c])))
  | _ => Option.none

/-- Dict lookup on parsed JSON members: the decoder builds a `dict`, so on
duplicate keys the last binding wins. -/
def jGet (kvs : List (String × JValue)) (k : String) : Option JValue :=
  (kvs.reverse.find? (fun kv => kv.1 == k)).map (fun kv => kv.2)

/-- Projection of a JSON leaf to a `PyVal`.  A container-valued field
(nested list/object) is outside the scalar row model (`Option.none`); in
CPython such a value would flow into the row unchanged, but no claim and no
theorem here feeds one. -/
def jScalar : JValue → Option PyVal
  | .null => some PyVal.none
  | .bool b => some (.bool b)
  | .int n => some (.int n)
  | .float q => some (.float q)
  | .str s => some (.str s)
  | .arr _ => Option.none
  | .obj _ => Option.none

/-- `r.get(k)` on a candidate dict: `None` when the key is absent. -/
def candField (kvs : List (String × JValue)) (k : String) : Option PyVal :=
  match jGet kvs k with
  | Option.none => some PyVal.none
  | some v => jScalar v

/-- One candidate of the checked list, projected to the keys
`normalize_row` reads.  `.get` on a non-dict element raises
`AttributeError` (`Option.none`). -/
def toCandidate : JValue → Option Row
  | .obj kvs => do
    let pid ← candField kvs "patient_id"
    let rd ← candField kvs "report_date"
    let mo ← candField kvs "modality"
    let bp ← candField kvs "body_part"
    let fi ← candField kvs "finding"
    let rf ← candField kvs "recommended_followup"
    let tf ← candField kvs "timeframe"
    let db ← candField kvs "due_by"
    let pr ← candField kvs "priority"
    let cf ← candField kvs "confidence"
    return { patient_id := pid
             report_date := rd
             modality := mo
             body_part := bp
             finding := fi
             recommended_followup := rf
             timeframe := tf
             due_by := db
             priority := pr
             confidence := cf }
  | _ => Option.none

/-- The per-page body of `wrangler.process_pdf` (lines 186-194) with the two
LLM responses supplied as inputs (the `gemini` CLI is an external
collaborator): parse the extraction response, hand it to the self-check
(whose response `verify_resp` is arbitrary), parse that, and normalize each
checked element. -/
def pageRecords (extract_resp verify_resp : String) (pdf : String) (page : Int) :
    Option (List Row) := do
  let _items := safe_json_loads extract_resp
  let checked := safe_json_loads verify_resp
  let elems ← iterElems checked
  elems.mapM (fun j => do
    let c ← toCandidate j
    normalize_row c pdf page)

def c3wResp : String := "The page contains no findings."

def c3resp : String := "Sure! [\x7b\"finding\": \"nodule\", \"confidence\": 1\x7d] Done."

def c3row : Row :=
  { modality := .str "Other"
    body_part := .str ""
    finding := .str "nodule"
    priority := .str "low"
    confidence := .float 1
    source_pdf := .str "a.pdf"
    page := .int 1 }

/-- `add_relative_due_by` is the identity (both branches return the row). -/
theorem add_relative_due_by_eq_self (row : Row) : add_relative_due_by row = row := by
  unfold add_relative_due_by
  exact ite_self row

theorem lowerChar_idem (c : Char) : lowerChar (lowerChar c) = lowerChar c := by
  unfold lowerChar
  by_cases h : 65 ≤ c.toNat ∧ c.toNat ≤ 90
  · rw [if_pos h]
    obtain ⟨h1, h2⟩ := h
    generalize hn : c.toNat = n at h1 h2
    interval_cases n <;> decide
  · rw [if_neg h, if_neg h]

theorem lowerStr_idem (s : String) : lowerStr (lowerStr s) = lowerStr s := by
  have hfn : lowerChar ∘ lowerChar = lowerChar := funext lowerChar_idem
  unfold lowerStr
  rw [List.map_map, hfn]

theorem lowerStr_ne_empty {s : String} (h : s ≠ "") : lowerStr s ≠ "" := by
  cases s with
  | mk data =>
    cases data with
    | nil => exact absurd rfl h
    | cons c cs =>
      intro hc
      exact List.noConfusion (congrArg String.data hc)

theorem pyOr_pyOr (a b : PyVal) : pyOr (pyOr a b) b = pyOr a b := by
  unfold pyOr
  by_cases h : pyTruthy a = true
  · rw [if_pos h, if_pos h]
  · rw [if_neg h]
    by_cases hb : pyTruthy b = true
    · rw [if_pos hb]
    · rw [if_neg hb]

theorem pyLower_eq_some {x y : PyVal} (h : pyLower x = some y) :
    ∃ t, x = PyVal.str t ∧ y = PyVal.str (lowerStr t) := by
  cases x <;> simp [pyLower] at h
  case str s => exact ⟨s, rfl, h.symm⟩

theorem normalize_row_eq_some (r : Row) (pdf : String) (page : Int) (out : Row) :
    normalize_row r pdf page = some out ↔
    ∃ pr cf, pyLower (pyOr r.priority (.str "low")) = some pr ∧
      pyFloat (pyOr r.confidence (.float (1/2))) = some cf ∧
      out = { patient_id := r.patient_id
              report_date := r.report_date
              modality := pyOr r.modality (.str "Other")
              body_part := pyOr r.body_part (.str "")
              finding := pyOr r.finding (.str "")
              recommended_followup := r.recommended_followup
              timeframe := r.timeframe
              due_by := r.due_by
              priority := pr
              confidence := .float cf
              source_pdf := .str (pathName pdf)
              page := .int page } := by
  simp only [normalize_row, bind, Option.bind_eq_some, add_relative_due_by_eq_self,
    pure, Option.some.injEq]
  constructor
  · rintro ⟨pr, hpr, cf, hcf, hout⟩
    exact ⟨pr, cf, hpr, hcf, hout.symm⟩
  · rintro ⟨pr, cf, hpr, hcf, hout⟩
    exact ⟨pr, hpr, cf, hcf, hout.symm⟩

/-- C1 (code_bug): the claim says `add_relative_due_by` sets `due_by` to
`report_date` plus the stated number of calendar units.  In `wrangler.py`
the dateutil names `dtp` and `relativedelta` are never imported, so the
function raises `NameError` internally on every input, swallows it via
`except Exception`, and returns the row unchanged: for report date
2024-01-31 and timeframe "in 1 month" the emitted `due_by` stays absent
instead of becoming 2024-02-29. -/
theorem c1_due_by_never_computed :
    add_relative_due_by c1row = c1row ∧
    (normalize_row c1row "report.pdf" 1).map Row.due_by = some PyVal.none := by
  exact ⟨add_relative_due_by_eq_self c1row, rfl⟩

/-- C4 (counterexample): a candidate with `recommended_followup = None` and
timeframe "in 3 months" is emitted with its timeframe and `due_by` passed
through unchanged, not cleared. -/
theorem c4_counterexample :
    normalize_row c4cand "a.pdf" 1 = some c4out ∧
    c4out.recommended_followup = PyVal.none ∧
    c4out.timeframe = PyVal.str "in 3 months" ∧ c4out.due_by = PyVal.str "2024-05-01" := by
  refine ⟨?_, rfl, rfl, rfl⟩
  with_unfolding_all rfl

/-- C4 (amended): `normalize_row` passes `timeframe`, `due_by` and
`recommended_followup` through unchanged for every candidate; the invariant
that no follow-up implies no timeframe is only requested of the model in
the extraction prompt and never enforced locally. -/
theorem c4_amended : ∀ (r : Row) (pdf : String) (pg : Int) (out : Row),
    normalize_row r pdf pg = some out →
    out.timeframe = r.timeframe ∧ out.due_by = r.due_by ∧
      out.recommended_followup = r.recommended_followup := by
  intro r pdf pg out h
  rw [normalize_row_eq_some] at h
  obtain ⟨pr, cf, h1, h2, rfl⟩ := h
  exact ⟨rfl, rfl, rfl⟩

/-- C4 witness: the amended theorem applied to a concrete candidate. -/
theorem c4_amended_witness :
    c4wOut.timeframe = c4wCand.timeframe ∧ c4wOut.due_by = c4wCand.due_by := by
  have h := c4_amended c4wCand "w.pdf" 2 c4wOut (by with_unfolding_all rfl)
  exact ⟨h.1, h.2.1⟩

/-- C5 (counterexample): a candidate with priority "Urgent" and confidence
0.2 is emitted with priority "urgent", which is outside the closed set
high/medium/low and is not forced to "low" although the confidence is below
0.5. -/
theorem c5_counterexample :
    normalize_row c5cand "a.pdf" 1 = some c5out ∧
    c5out.confidence = PyVal.float (1/5) ∧ (1/5 : ℚ) < 1/2 ∧
    c5out.priority = PyVal.str "urgent" ∧
    c5out.priority ≠ PyVal.str "high" ∧
    c5out.priority ≠ PyVal.str "medium" ∧
    c5out.priority ≠ PyVal.str "low" := by
  refine ⟨?_, rfl, by norm_num, rfl, by decide, by decide, by decide⟩
  with_unfolding_all rfl

/-- C5 (amended): `normalize_row` defaults a falsy priority to "low" and
lower-cases a string priority, but any value passes through — membership in
the closed set high/medium/low is not enforced, and a confidence below 0.5
does not force the priority to "low" (that rule exists only as prompt text
in `SELF_CHECK_SYSTEM`). -/
theorem c5_amended : ∀ (r : Row) (pdf : String) (pg : Int) (out : Row),
    normalize_row r pdf pg = some out →
    (¬ pyTruthy r.priority → out.priority = PyVal.str "low") ∧
    (∀ s, r.priority = PyVal.str s → s ≠ "" → out.priority = PyVal.str (lowerStr s)) := by
  intro r pdf pg out h
  rw [normalize_row_eq_some] at h
  obtain ⟨pr, cf, h1, h2, rfl⟩ := h
  constructor
  · intro hf
    simp only [pyOr, hf] at h1
    simp only [Bool.false_eq_true, if_neg, ite_false] at h1
    simp [pyLower] at h1
    simp [← h1]
    decide
  · intro s hs hne
    rw [hs] at h1
    have ht : pyTruthy (PyVal.str s) = true := by
      simp [pyTruthy]
      exact hne
    simp only [pyOr, ht, if_pos] at h1
    simp [pyLower] at h1
    simp [← h1]

/-- C5 witness: the amended theorem applied to a concrete candidate with
priority "HIGH". -/
theorem c5_amended_witness : c5wOut.priority = PyVal.str "high" := by
  have h := c5_amended c5wCand "w.pdf" 1 c5wOut (by with_unfolding_all rfl)
  have h2 := h.2 "HIGH" rfl (by decide)
  exact h2.trans (by decide)

/-- C6 (counterexample): an out-of-range confidence of 2.0 is emitted as
2.0 — neither clamped into the unit interval nor defaulted to 0.5. -/
theorem c6_counterexample :
    normalize_row c6cand "a.pdf" 1 = some c6out ∧
    c6out.confidence = PyVal.float 2 ∧ ¬ ((2:ℚ) ≤ 1) ∧ (2:ℚ) ≠ 1/2 := by
  refine ⟨?_, rfl, by norm_num, by norm_num⟩
  with_unfolding_all rfl

/-- C6 (amended): the emitted confidence is `float(x)` of a truthy
coercible input and 0.5 for a falsy or absent one; a truthy input that
`float` cannot coerce (for example the string "abc") makes `normalize_row`
raise instead of defaulting. -/
theorem c6_amended :
    (∀ (r : Row) (pdf : String) (pg : Int) (out : Row),
       normalize_row r pdf pg = some out →
       ∃ q, out.confidence = PyVal.float q ∧
         (¬ pyTruthy r.confidence → q = 1/2) ∧
         (pyTruthy r.confidence → pyFloat r.confidence = some q)) ∧
    (∀ (r : Row) (pdf : String) (pg : Int), pyTruthy r.confidence →
       pyFloat r.confidence = Option.none → normalize_row r pdf pg = Option.none) := by
  constructor
  · intro r pdf pg out h
    rw [normalize_row_eq_some] at h
    obtain ⟨pr, cf, h1, h2, rfl⟩ := h
    refine ⟨cf, rfl, ?_, ?_⟩
    · intro hf
      simp only [pyOr, hf] at h2
      simp only [Bool.false_eq_true, ite_false] at h2
      have h2x : some ((1:ℚ)/2) = some cf := h2
      exact (Option.some.inj h2x).symm
    · intro ht
      simp only [pyOr, ht, if_pos] at h2
      exact h2
  · intro r pdf pg ht hf
    have hc : pyFloat (pyOr r.confidence (PyVal.float (1/2))) = Option.none := by
      simp only [pyOr, ht, if_true, ite_true]
      exact hf
    unfold normalize_row
    cases hl : pyLower (pyOr r.priority (.str "low")) with
    | none => simp [bind, hl]
    | some pr =>
      simp [bind, hl, hc]
      intro a ha
      rw [(by norm_num : (2⁻¹ : ℚ) = 1/2), hc] at ha
      exact Option.noConfusion ha

/-- C6 witness: both parts of the amended theorem applied to concrete
candidates. -/
theorem c6_amended_witness :
    (∃ q, c6wAout.confidence = PyVal.float q) ∧
    normalize_row c6wB "w.pdf" 1 = Option.none := by
  constructor
  · obtain ⟨q, hq, -, -⟩ :=
      c6_amended.1 c6wA "w.pdf" 1 c6wAout (by with_unfolding_all rfl)
    exact ⟨q, hq⟩
  · exact c6_amended.2 c6wB "w.pdf" 1 (by decide) (by with_unfolding_all rfl)

/-- C8 (counterexample): normalizing a candidate whose confidence is the
string "0" yields confidence 0.0; normalizing that output again yields 0.5,
because 0.0 is falsy and `float(x or 0.5)` replaces it — so the Normalizer
is not idempotent. -/
theorem c8_counterexample :
    normalize_row c8cand "a.pdf" 1 = some c8o1 ∧
    normalize_row c8o1 "a.pdf" 1 = some c8o2 ∧ c8o2 ≠ c8o1 := by
  refine ⟨?_, ?_, ?_⟩
  · with_unfolding_all rfl
  · with_unfolding_all rfl
  · intro h
    have hc := congrArg Row.confidence h
    simp only [c8o1, c8o2] at hc
    have : (1/2 : ℚ) = 0 := by injection hc
    norm_num at this

/-- C8 (amended): `normalize_row` is idempotent on every successfully
normalized record whose emitted confidence is nonzero. -/
theorem c8_amended : ∀ (r : Row) (pdf : String) (pg : Int) (out : Row),
    normalize_row r pdf pg = some out → out.confidence ≠ PyVal.float 0 →
    normalize_row out pdf pg = some out := by
  intro r pdf pg out h hnz
  rw [normalize_row_eq_some] at h
  obtain ⟨pr, cf, h1, h2, rfl⟩ := h
  obtain ⟨t, ht_eq, rfl⟩ := pyLower_eq_some h1
  have htne : t ≠ "" := by
    by_cases hp : pyTruthy r.priority = true
    · rw [pyOr, if_pos hp] at ht_eq
      rw [ht_eq] at hp
      intro he
      rw [he] at hp
      simp [pyTruthy] at hp
    · rw [pyOr, if_neg hp] at ht_eq
      have : t = "low" := by
        have := ht_eq
        injection this with h'
        exact h'.symm
      rw [this]
      decide
  have hcf : cf ≠ 0 := by
    intro h0
    apply hnz
    show PyVal.float cf = PyVal.float 0
    rw [h0]
  have hlne : lowerStr t ≠ "" := lowerStr_ne_empty htne
  rw [normalize_row_eq_some]
  refine ⟨PyVal.str (lowerStr t), cf, ?_, ?_, ?_⟩
  · show pyLower (pyOr (PyVal.str (lowerStr t)) (.str "low")) = some (PyVal.str (lowerStr t))
    have htr : pyTruthy (PyVal.str (lowerStr t)) = true := by
      simp [pyTruthy]
      exact hlne
    rw [pyOr, if_pos htr]
    simp [pyLower, lowerStr_idem]
  · show pyFloat (pyOr (PyVal.float cf) (.float (1/2))) = some cf
    have htr : pyTruthy (PyVal.float cf) = true := by
      simp [pyTruthy]
      exact hcf
    rw [pyOr, if_pos htr]
    rfl
  · simp only [Row.mk.injEq, pyOr_pyOr, and_self, and_true, true_and]

/-- C8 witness: the amended theorem applied to the empty candidate. -/
theorem c8_amended_witness : normalize_row c8wOut "w.pdf" 3 = some c8wOut := by
  refine c8_amended {} "w.pdf" 3 c8wOut (by with_unfolding_all rfl) ?_
  intro h
  have h2 : PyVal.float (1/2) = PyVal.float 0 := h
  injection h2 with h3
  norm_num at h3

/-- C2 (code_bug): the claim says `due_within_30` counts the rows whose
`due_by` lies in the inclusive window from today minus 365 days to today
plus 30 days.  In the code `within_30` always returns `False` (`dtp` is an
unbound name and the `NameError` is swallowed), and because the table has
no header line `pandas` consumes the first data row as the column header.
For a two-row table whose rows are due today and in thirty days the
dashboard therefore reports `due_within_30 = 0` and `total_rows = 1`. -/
theorem c2_dashboard_window_dead_code :
    append_rows [] [c2rowA, c2rowB] = some c2lines ∧
    (aggregate_dashboard_stats c2lines).due_within_30 = 0 ∧
    (aggregate_dashboard_stats c2lines).total_rows = 1 ∧
    within_30 "2026-11-11" = false ∧ within_30 "2026-10-12" = false := by
  refine ⟨by with_unfolding_all rfl, rfl, rfl, rfl, rfl⟩

set_option maxRecDepth 8000 in
/-- C7 (counterexample): a page text of 180 characters of which only two
are non-whitespace takes the no-OCR branch, because the code gates on
`len(txt.strip())` — which keeps interior whitespace — not on the count of
non-whitespace characters the claim states. -/
theorem c7_counterexample :
    nonWsCount c7txt = 2 ∧
    (extract_page_text_or_image (fun _ _ => c7txt) (fun _ => "") "/tmp" "a.pdf" 1).2 = Option.none := by
  exact ⟨by with_unfolding_all decide, by with_unfolding_all decide⟩

/-- C7 (amended): the image reference is present exactly when the
extracted text, stripped of leading and trailing whitespace, has length
below 180; at or above the threshold the result is the text with no image
(independent of the OCR collaborator), and below it the rendered image path
is returned. -/
theorem c7_amended : ∀ (ptt : String → Nat → String) (tess : String → String)
    (tmpdir pdf : String) (p : Nat),
    ((extract_page_text_or_image ptt tess tmpdir pdf p).2.isSome ↔ (ptt pdf p).trim.length < 180) ∧
    (180 ≤ (ptt pdf p).trim.length →
      extract_page_text_or_image ptt tess tmpdir pdf p = (ptt pdf p, Option.none)) ∧
    ((ptt pdf p).trim.length < 180 →
      (extract_page_text_or_image ptt tess tmpdir pdf p).2 =
        some (tmpdir ++ "/" ++ stem pdf ++ "-p" ++ toString p ++ "-1.png")) := by
  intro ptt tess tmpdir pdf p
  by_cases h : 180 ≤ (ptt pdf p).trim.length
  · have he : extract_page_text_or_image ptt tess tmpdir pdf p = (ptt pdf p, Option.none) := by
      unfold extract_page_text_or_image
      rw [if_pos h]
    refine ⟨?_, fun _ => he, fun hlt => absurd hlt (by omega)⟩
    rw [he]
    simp only [Option.isSome_none, Bool.false_eq_true, false_iff]
    omega
  · have hlt : (ptt pdf p).trim.length < 180 := by omega
    have he : (extract_page_text_or_image ptt tess tmpdir pdf p).2 =
        some (tmpdir ++ "/" ++ stem pdf ++ "-p" ++ toString p ++ "-1.png") := by
      unfold extract_page_text_or_image
      rw [if_neg h]
    refine ⟨?_, fun hge => absurd hge h, fun _ => he⟩
    rw [he]
    simp only [Option.isSome_some, true_iff]
    exact hlt

/-- C7 witness: the amended theorem applied to a short concrete page
text. -/
theorem c7_amended_witness :
    (extract_page_text_or_image (fun _ _ => "short") (fun _ => "ocr text") "/tmp" "scan.pdf" 2).2 =
      some "/tmp/scan-p2-1.png" := by
  have h := (c7_amended (fun _ _ => "short") (fun _ => "ocr text") "/tmp" "scan.pdf" 2).2.2
    (by with_unfolding_all decide)
  exact h.trans (by with_unfolding_all decide)

/-- C9 (code_bug): `append_rows` appends the twelve data cells per record
in the fixed column order without touching existing lines, but it never
writes a header row — on first creation of the table or later — although
`aggregate_dashboard` and `load_context` both read the table expecting
named columns. -/
theorem c9_no_header_row :
    append_rows [] [c9row] = some [c9cells] ∧
    c9cells ≠ csvHeader ∧
    append_rows [c9cells] [c9row] = some [c9cells, c9cells] := by
  refine ⟨by with_unfolding_all rfl, by decide, by with_unfolding_all rfl⟩

theorem searchPages_eq_none_of_no_match : ∀ cs : List Char,
    (∀ i, i ≤ cs.length → matchPagesAt (cs.drop i) = Option.none) →
    searchPages cs = Option.none := by
  intro cs
  induction cs with
  | nil => intro _; rfl
  | cons c cs ih =>
    intro h
    have h0 : matchPagesAt (c :: cs) = Option.none := h 0 (Nat.zero_le _)
    unfold searchPages
    rw [h0]
    exact ih (fun i hi => h (i + 1) (Nat.succ_le_succ hi))

/-- C10 (confirmed): when the `pdfinfo` output matches the pattern
`Pages:` followed by whitespace and digits at no position, `pdf_pages`
returns 1 rather than failing. -/
theorem c10_pdf_pages_default : ∀ out : String,
    (∀ i, i ≤ out.data.length → matchPagesAt (out.data.drop i) = Option.none) →
    pdf_pages out = 1 := by
  intro out h
  unfold pdf_pages
  rw [searchPages_eq_none_of_no_match out.data h]

/-- C10 witness: the theorem applied to a concrete pdfinfo output with no
page count line. -/
theorem c10_witness : pdf_pages "Producer: foo" = 1 :=
  c10_pdf_pages_default "Producer: foo" (by decide)

/-- C3 (amended): a model response that fails the strict JSON parse and
whose recovery tier also fails — no bracketed span, or a span that itself
fails to parse — is treated as the empty candidate list, so the page yields
zero records and no error reaches the caller.  (The original claim said
this for every response that fails the strict parse; the counterexample
shows the recovery tier can still produce records.) -/
theorem c3_amended : ∀ (er vr pdf : String) (pg : Int),
    json_loads vr = Option.none →
    (∀ t, bracketSpan vr = some t → json_loads t = Option.none) →
    pageRecords er vr pdf pg = some [] := by
  intro er vr pdf pg h1 h2
  have hs : safe_json_loads vr = JValue.arr [] := by
    unfold safe_json_loads
    rw [h1]
    cases hb : bracketSpan vr with
    | none => rfl
    | some t =>
      show (match json_loads t with
            | some v => v
            | Option.none => JValue.arr []) = JValue.arr []
      rw [h2 t hb]
  unfold pageRecords
  rw [hs]
  rfl

/-- C3 witness: the amended theorem applied to a concrete prose response
containing no bracketed span. -/
theorem c3_amended_witness : pageRecords "" c3wResp "w.pdf" 1 = some [] := by
  apply c3_amended
  · with_unfolding_all rfl
  · intro t ht
    have hb : bracketSpan c3wResp = Option.none := by with_unfolding_all rfl
    rw [hb] at ht
    exact Option.noConfusion ht

set_option maxRecDepth 8000 in
/-- C3 (counterexample): a verification response that is not strictly
parseable as JSON but contains a recoverable bracketed list yields one
normalized record for the page, not zero. -/
theorem c3_counterexample :
    json_loads c3resp = Option.none ∧
    pageRecords "" c3resp "a.pdf" 1 = some [c3row] := by
  constructor
  · with_unfolding_all rfl
  · with_unfolding_all rfl
